import Mathlib

/-!
Verification of the DynamicRN contact-import and bulk-mailing pipeline.

The Python source (`utils.py`, `main.py`, `models.py`) is shallowly embedded:
pure helpers become Lean functions over `String` / `List Char`; the pandas
data frame is a list of rows (association lists from column name to cell);
the SQLAlchemy session and the SMTP transport are explicit parameters
recording which effects the code would perform.
-/

namespace DynamicRN

/-! ### Character and string primitives -/

/-- Whitespace trimming on both ends of a character list, modelling Python
`str.strip()` for the ASCII whitespace that occurs in this code base. -/
def trimChars (cs : List Char) : List Char :=
  ((cs.dropWhile Char.isWhitespace).reverse.dropWhile Char.isWhitespace).reverse

/-- Python `str.strip()`. -/
def pyStrip (s : String) : String := String.mk (trimChars s.data)

/-- Does `pat` occur as a contiguous substring, modelling Python `in` on
strings. -/
def occursIn (pat : List Char) : List Char → Bool
  | [] => pat.isPrefixOf []
  | c :: rest => pat.isPrefixOf (c :: rest) || occursIn pat rest

/-- String-level containment test. -/
def containsStr (s pat : String) : Bool := occursIn pat.data s.data

/-- String-level prefix test. -/
def startsStr (s pat : String) : Bool := pat.data.isPrefixOf s.data

/-- Python truthiness of an optional string (`None` and `""` are falsy). -/
def truthyOpt : Option String → Bool
  | Option.none => false
  | Option.some s => !s.isEmpty

/-! ### Validator (`utils.py`, `validate_email`)

The Python function matches the string against the regular expression
`^[\w\.-]+@[\w\.-]+\.\w+$` with `re.match`.  `\w` is modelled by its ASCII
fragment (letters, digits, underscore), which is exact for every input
considered here.  In Python, `$` also matches just before a single final
newline, so the matcher accepts an optional trailing `\n`. -/

/-- ASCII fragment of the regex class `\w`. -/
def isWordChar (c : Char) : Bool := c.isAlpha || c.isDigit || c = '_'

/-- The regex class `[\w\.-]`. -/
def isEmailChar (c : Char) : Bool := isWordChar c || c = '.' || c = '-'

/-- Recognizer for the domain part of the pattern: `[\w\.-]+\.\w+`.
Implemented by splitting at the last dot. -/
def emailDomainOk (d : List Char) : Bool :=
  match d.reverse.dropWhile (fun c => c != '.') with
  | '.' :: bRev =>
      (!bRev.isEmpty) && bRev.all isEmailChar &&
      (!(d.reverse.takeWhile (fun c => c != '.')).isEmpty) &&
      (d.reverse.takeWhile (fun c => c != '.')).all isWordChar
  | _ => false

/-- Recognizer for the anchored core pattern `[\w\.-]+@[\w\.-]+\.\w+`:
split at the first `@` (the classes exclude `@`, so a match has exactly
one). -/
def emailCoreMatch (cs : List Char) : Bool :=
  match cs.dropWhile (fun c => c != '@') with
  | '@' :: d =>
      (!(cs.takeWhile (fun c => c != '@')).isEmpty) &&
      (cs.takeWhile (fun c => c != '@')).all isEmailChar &&
      emailDomainOk d
  | _ => false

/-- `utils.validate_email`: `re.match(r'^[\w\.-]+@[\w\.-]+\.\w+$', email)`,
including the Python `$` behaviour of tolerating one trailing newline. -/
def validate_email (s : String) : Bool :=
  emailCoreMatch s.data ||
    ((s.data.getLast? == some '\n') && emailCoreMatch s.data.dropLast)

/-- The decomposition the regex language corresponds to: a nonempty local
part of `[\w.-]` characters, `@`, a nonempty middle of `[\w.-]` characters,
a dot, and a nonempty final label of word characters. -/
def EmailShape (cs : List Char) : Prop :=
  ∃ a b c : List Char,
    cs = a ++ '@' :: (b ++ '.' :: c) ∧
    a ≠ [] ∧ (∀ ch ∈ a, isEmailChar ch = true) ∧
    b ≠ [] ∧ (∀ ch ∈ b, isEmailChar ch = true) ∧
    c ≠ [] ∧ (∀ ch ∈ c, isWordChar ch = true)

/-- Executable rendering of the specification sentence for the Validator:
"local@domain.tld shape, non-whitespace local part, at least one
dot-separated domain label, non-whitespace throughout".  Modelled from the
spec wording, for comparison with `validate_email`. -/
def specEmailShape (s : String) : Bool :=
  match s.data.dropWhile (fun c => c != '@') with
  | '@' :: d =>
      (!(s.data.takeWhile (fun c => c != '@')).isEmpty) &&
      (s.data.takeWhile (fun c => c != '@')).all (fun c => !c.isWhitespace) &&
      (match d.reverse.dropWhile (fun c => c != '.') with
       | '.' :: bRev =>
           (!bRev.isEmpty) && bRev.all (fun c => !c.isWhitespace && c != '@') &&
           (!(d.reverse.takeWhile (fun c => c != '.')).isEmpty) &&
           (d.reverse.takeWhile (fun c => c != '.')).all
             (fun c => !c.isWhitespace && c != '@' && c != '.')
       | _ => false)
  | _ => false

/-! ### List lemmas used to relate the greedy matcher to decompositions -/

theorem not_isEmpty_iff {α : Type} (l : List α) : (!l.isEmpty) = true ↔ l ≠ [] := by
  cases l <;> simp [List.isEmpty]

theorem dropWhile_head_false {α : Type} (p : α → Bool) :
    ∀ (l : List α) (x : α) (xs : List α), l.dropWhile p = x :: xs → p x = false := by
  intro l
  induction l with
  | nil => intro x xs h; exact absurd h (by simp [List.dropWhile])
  | cons c rest ih =>
      intro x xs h
      by_cases hc : p c = true
      · exact ih x xs (by simpa [List.dropWhile, hc] using h)
      · have hc' : p c = false := by
          cases hv : p c with
          | false => rfl
          | true => exact absurd hv hc
        have : c :: rest = x :: xs := by simpa [List.dropWhile, hc'] using h
        cases this
        exact hc'

theorem takeWhile_append_cons {α : Type} (p : α → Bool) :
    ∀ (a : List α) (x : α) (l : List α), (∀ c ∈ a, p c = true) → p x = false →
      (a ++ x :: l).takeWhile p = a ∧ (a ++ x :: l).dropWhile p = x :: l := by
  intro a
  induction a with
  | nil => intro x l _ hx; simp [List.takeWhile, List.dropWhile, hx]
  | cons c a ih =>
      intro x l ha hx
      have hc : p c = true := ha c (by simp)
      have h := ih x l (fun d hd => ha d (by simp [hd])) hx
      simp [List.takeWhile, List.dropWhile, hc, h.1, h.2]

theorem emailDomainOk_iff (d : List Char) :
    emailDomainOk d = true ↔
      ∃ b c : List Char, d = b ++ '.' :: c ∧
        b ≠ [] ∧ (∀ ch ∈ b, isEmailChar ch = true) ∧
        c ≠ [] ∧ (∀ ch ∈ c, isWordChar ch = true) := by
  constructor
  · intro h
    unfold emailDomainOk at h
    rcases hm : d.reverse.dropWhile (fun c => c != '.') with _ | ⟨hd, bRev⟩
    · rw [hm] at h; exact absurd h (by simp)
    · rw [hm] at h
      by_cases hdot : hd = '.'
      · subst hdot
        simp only [Bool.and_eq_true, not_isEmpty_iff, List.all_eq_true] at h
        refine ⟨bRev.reverse, (d.reverse.takeWhile (fun c => c != '.')).reverse,
          ?_, ?_, ?_, ?_, ?_⟩
        · have hsplit : d.reverse.takeWhile (fun c => c != '.') ++
              d.reverse.dropWhile (fun c => c != '.') = d.reverse :=
            List.takeWhile_append_dropWhile (fun c => c != '.') d.reverse
          rw [hm] at hsplit
          calc d = d.reverse.reverse := (List.reverse_reverse d).symm
            _ = (d.reverse.takeWhile (fun c => c != '.') ++ '.' :: bRev).reverse := by
                  rw [hsplit]
            _ = bRev.reverse ++ '.' :: (d.reverse.takeWhile (fun c => c != '.')).reverse := by
                  simp [List.reverse_append]
        · simpa using h.1.1.1
        · intro ch hch
          exact h.1.1.2 ch (by simpa using hch)
        · simpa using h.1.2
        · intro ch hch
          exact h.2 ch (by simpa using hch)
      · exfalso
        have hdrop := dropWhile_head_false (fun c => c != '.') d.reverse hd bRev hm
        simp only [bne_eq_false_iff_eq] at hdrop
        exact hdot hdrop
  · rintro ⟨b, c, hd, hb, hball, hc, hcall⟩
    have hcrev : ∀ ch ∈ c.reverse, (ch != '.') = true := by
      intro ch hch
      have hw : isWordChar ch = true := hcall ch (by simpa using hch)
      cases heq : (ch != '.') with
      | true => rfl
      | false =>
          exfalso
          simp only [bne_eq_false_iff_eq] at heq
          subst heq
          exact absurd hw (by decide)
    have hrev : d.reverse = c.reverse ++ '.' :: b.reverse := by
      rw [hd]; simp [List.reverse_append]
    have hsplit := takeWhile_append_cons (fun ch => ch != '.') c.reverse '.' b.reverse
      hcrev (by simp)
    unfold emailDomainOk
    rw [hrev, hsplit.2, hsplit.1]
    simp only [Bool.and_eq_true, not_isEmpty_iff, List.all_eq_true]
    refine ⟨⟨⟨by simpa using hb, ?_⟩, by simpa using hc⟩, ?_⟩
    · intro ch hch; exact hball ch (by simpa using hch)
    · intro ch hch; exact hcall ch (by simpa using hch)

theorem emailCoreMatch_iff (cs : List Char) :
    emailCoreMatch cs = true ↔ EmailShape cs := by
  constructor
  · intro h
    unfold emailCoreMatch at h
    rcases hm : cs.dropWhile (fun c => c != '@') with _ | ⟨hd, d⟩
    · rw [hm] at h; exact absurd h (by simp)
    · rw [hm] at h
      by_cases hat : hd = '@'
      · subst hat
        simp only [Bool.and_eq_true, not_isEmpty_iff, List.all_eq_true] at h
        have hdom := (emailDomainOk_iff d).mp h.2
        rcases hdom with ⟨b, c, hdedc, hb, hball, hc, hcall⟩
        refine ⟨cs.takeWhile (fun c => c != '@'), b, c, ?_, h.1.1, h.1.2, hb, hball, hc, hcall⟩
        have hsplit : cs.takeWhile (fun c => c != '@') ++
            cs.dropWhile (fun c => c != '@') = cs :=
          List.takeWhile_append_dropWhile (fun c => c != '@') cs
        rw [hm, hdedc] at hsplit
        exact hsplit.symm
      · exfalso
        have hdrop := dropWhile_head_false (fun c => c != '@') cs hd d hm
        simp only [bne_eq_false_iff_eq] at hdrop
        exact hat hdrop
  · rintro ⟨a, b, c, hcs, ha, haall, hb, hball, hc, hcall⟩
    have haat : ∀ ch ∈ a, (ch != '@') = true := by
      intro ch hch
      have hw : isEmailChar ch = true := haall ch hch
      cases heq : (ch != '@') with
      | true => rfl
      | false =>
          exfalso
          simp only [bne_eq_false_iff_eq] at heq
          subst heq
          exact absurd hw (by decide)
    have hsplit := takeWhile_append_cons (fun ch => ch != '@') a '@' (b ++ '.' :: c)
      haat (by simp)
    unfold emailCoreMatch
    rw [hcs, hsplit.2, hsplit.1]
    simp only [Bool.and_eq_true, not_isEmpty_iff, List.all_eq_true]
    exact ⟨⟨ha, haall⟩, (emailDomainOk_iff _).mpr ⟨b, c, rfl, hb, hball, hc, hcall⟩⟩

/-! ### Mail Dispatcher rendering (`main.py`, Email Blast send loop)

Python `str.replace(old, new)` replaces every non-overlapping occurrence
scanning left to right.  The recursion is driven by a fuel argument equal
to the scanned list's length, so concrete instances reduce by `decide`. -/

/-- Left-to-right non-overlapping replacement of `pat` by `rep`, with fuel. -/
def replaceFuel (pat rep : List Char) : Nat → List Char → List Char
  | _, [] => []
  | 0, s => s
  | Nat.succ f, c :: rest =>
      if pat.isPrefixOf (c :: rest) then
        rep ++ replaceFuel pat rep f ((c :: rest).drop pat.length)
      else
        c :: replaceFuel pat rep f rest

/-- Python `str.replace` for a nonempty pattern (all patterns in the code
are the literal bracketed tokens, which are nonempty). -/
def pyReplace (s pat rep : String) : String :=
  if pat.isEmpty then s else String.mk (replaceFuel pat.data rep.data s.data.length s.data)

/-- A contact record as the Email Blast loop reads it: the attributes used
for personalization plus the address.  A missing (`None`) attribute and an
empty string behave identically under Python `or`, so both are modelled as
`""`. -/
structure Contact where
  first_name : String
  nurse_type : String
  specialty : String
  email : String
deriving DecidableEq

/-- Python `attr or default` for string attributes. -/
def orDefault (s d : String) : String := if s.isEmpty then d else s

/-- `main.py` lines 563-565: the placeholder substitution applied to the
template body before each send. -/
def personalized_body (body : String) (c : Contact) : String :=
  pyReplace
    (pyReplace
      (pyReplace body "[FIRST_NAME]" (orDefault c.first_name "Valued Nurse"))
      "[NURSE_TYPE]" (orDefault c.nurse_type "healthcare professional"))
    "[SPECIALTY]" (orDefault c.specialty "your specialty")

theorem replaceFuel_of_not_occurs (pat rep : List Char) :
    ∀ (f : Nat) (s : List Char), occursIn pat s = false → replaceFuel pat rep f s = s := by
  intro f
  induction f with
  | zero => intro s _; cases s <;> rfl
  | succ f ih =>
      intro s hocc
      cases s with
      | nil => rfl
      | cons c rest =>
          have h := hocc
          simp only [occursIn, Bool.or_eq_false_iff] at h
          rw [replaceFuel, if_neg (by simp [h.1]), ih rest h.2]

theorem pyReplace_of_not_contains (s pat rep : String) (h : containsStr s pat = false) :
    pyReplace s pat rep = s := by
  unfold pyReplace
  by_cases hp : pat.isEmpty
  · rw [if_pos hp]
  · rw [if_neg hp, replaceFuel_of_not_occurs pat.data rep.data s.data.length s.data h]

theorem personalized_body_of_no_tokens (body : String) (c : Contact)
    (h1 : containsStr body "[FIRST_NAME]" = false)
    (h2 : containsStr body "[NURSE_TYPE]" = false)
    (h3 : containsStr body "[SPECIALTY]" = false) :
    personalized_body body c = body := by
  unfold personalized_body
  rw [pyReplace_of_not_contains body _ _ h1, pyReplace_of_not_contains body _ _ h2,
    pyReplace_of_not_contains body _ _ h3]

/-! ### Email Blast loop (`main.py` lines 555-579) -/

/-- Python `f"...{x}..."` applied to an `Option String` diagnostic
(`None` renders as the string `None`). -/
def optMsgStr : Option String → String
  | Option.none => "None"
  | Option.some s => s

/-- Aggregate state produced by the blast loop, plus the ordered list of
addresses passed to `send_email` (one entry per call). -/
structure BlastResult where
  success_count : Nat
  error_count : Nat
  error_messages : List String
  attempted : List String
deriving DecidableEq

/-- The Email Blast send loop: for each filtered contact in order,
personalize the body, call the single-send operation, and aggregate.
The single-send operation is the collaborator `send`, taking
(to_email, subject, body) and returning `(success, error_msg)`. -/
def email_blast (subject body : String)
    (send : String → String → String → Bool × Option String) :
    List Contact → BlastResult
  | [] => ⟨0, 0, [], []⟩
  | c :: rest =>
      let r := send c.email subject (personalized_body body c)
      let t := email_blast subject body send rest
      if r.1 then
        ⟨t.success_count + 1, t.error_count, t.error_messages, c.email :: t.attempted⟩
      else
        ⟨t.success_count, t.error_count + 1,
          ("Failed to send email to " ++ c.email ++ ": " ++ optMsgStr r.2) :: t.error_messages,
          c.email :: t.attempted⟩

theorem email_blast_spec (subject body : String)
    (send : String → String → String → Bool × Option String) (contacts : List Contact) :
    (email_blast subject body send contacts).attempted = contacts.map Contact.email ∧
    (email_blast subject body send contacts).success_count =
      contacts.countP (fun c => (send c.email subject (personalized_body body c)).1) ∧
    (email_blast subject body send contacts).error_count =
      contacts.countP (fun c => !(send c.email subject (personalized_body body c)).1) ∧
    (email_blast subject body send contacts).error_messages =
      contacts.filterMap (fun c =>
        if (send c.email subject (personalized_body body c)).1 then Option.none
        else Option.some ("Failed to send email to " ++ c.email ++ ": " ++
          optMsgStr (send c.email subject (personalized_body body c)).2)) := by
  induction contacts with
  | nil => exact ⟨rfl, rfl, rfl, rfl⟩
  | cons c rest ih =>
      cases hr : (send c.email subject (personalized_body body c)).1 <;>
        simp [email_blast, hr, List.countP_cons, List.filterMap_cons,
          ih.1, ih.2.1, ih.2.2.1, ih.2.2.2]

/-! ### Tabular Importer (`utils.py`, `process_file_upload`)

A parsed data frame is a list of rows; a row is an association list from
column name to cell.  A cell is NA (pandas `NaN`), a string, or a number
(any non-NA cell is coerced with Python `str(...)` before use, exactly as
line 147 of `utils.py` does).  The pandas parsing step and the SQLAlchemy
session are external collaborators, passed in as the parse result and the
commit outcome. -/

/-- A pandas cell as the importer observes it. -/
inductive Cell where
  | na
  | str (s : String)
  | int (n : Int)
deriving DecidableEq

/-- A value stored in `contact_data`: Python `None`, a string, or the list
produced by the certifications branch. -/
inductive PyVal where
  | none
  | vstr (s : String)
  | vlist (xs : List String)
deriving DecidableEq

/-- Line 147: `None if pd.isna(value) else str(value).strip()`. -/
def cellToVal : Cell → PyVal
  | Cell.na => PyVal.none
  | Cell.str s => PyVal.vstr (pyStrip s)
  | Cell.int n => PyVal.vstr (pyStrip (toString n))

/-- Python dict assignment `d[k] = v` on an association list. -/
def assocSet : List (String × PyVal) → String → PyVal → List (String × PyVal)
  | [], k, v => [(k, v)]
  | (k0, v0) :: rest, k, v =>
      if k0 = k then (k0, v) :: rest else (k0, v0) :: assocSet rest k v

/-- Lines 142-148: project source columns onto logical fields per the
mapping, skipping file fields absent from the row. -/
def buildContactData (mapping : List (String × String))
    (row : List (String × Cell)) : List (String × PyVal) :=
  mapping.foldl (fun acc kv =>
    match row.lookup kv.2 with
    | Option.none => acc
    | Option.some cell => assocSet acc kv.1 (cellToVal cell)) []

/-- Python `contact_data.get(k)` (missing key gives `None`). -/
def getVal (cd : List (String × PyVal)) (k : String) : PyVal :=
  (cd.lookup k).getD PyVal.none

/-- Python truthiness of a `contact_data` value. -/
def pyTruthy : PyVal → Bool
  | PyVal.none => false
  | PyVal.vstr s => !s.isEmpty
  | PyVal.vlist xs => !xs.isEmpty

/-- Python `s.split(',')` (keeps empty segments). -/
def splitCommaAux : List Char → List Char → List (List Char)
  | [], acc => [acc.reverse]
  | c :: rest, acc =>
      if c = ',' then acc.reverse :: splitCommaAux rest []
      else splitCommaAux rest (c :: acc)

/-- Lines 165-169: `[cert.strip() for cert in s.split(',') if cert.strip()]`. -/
def certSplit (s : String) : List String :=
  (((splitCommaAux s.data []).map trimChars).filter (fun cs => !cs.isEmpty)).map String.mk

/-- Lines 162-171: the certifications branch, including the (unreachable
for mapped cells) non-string arm that stores an empty list. -/
def certStep (cd : List (String × PyVal)) : List (String × PyVal) :=
  match cd.lookup "certifications" with
  | Option.none => cd
  | Option.some v =>
      if pyTruthy v then
        match v with
        | PyVal.vstr s => assocSet cd "certifications" (PyVal.vlist (certSplit s))
        | _ => assocSet cd "certifications" (PyVal.vlist [])
      else cd

/-- Rendering of a `contact_data` value inside an f-string.  Python quoting
of the dict repr is abstracted away; every claim about error messages only
constrains the fixed text preceding this rendering. -/
def pyValRepr : PyVal → String
  | PyVal.none => "None"
  | PyVal.vstr s => s
  | PyVal.vlist xs => "[" ++ String.intercalate ", " xs ++ "]"

/-- Rendering of `contact_data` inside the `Missing required fields`
message. -/
def dictRepr (cd : List (String × PyVal)) : String :=
  "\x7b" ++ String.intercalate ", " (cd.map (fun kv => kv.1 ++ ": " ++ pyValRepr kv.2)) ++ "\x7d"

/-- The string checked by `validate_email(contact_data.get('email', ''))`. -/
def emailStringOf (cd : List (String × PyVal)) : String :=
  match getVal cd "email" with
  | PyVal.vstr s => s
  | _ => ""

/-- Outcome of the body of the per-row `try` block. -/
inductive RowOutcome where
  | ok (cd : List (String × PyVal))
  | err (msg : String)
deriving DecidableEq

/-- Did the row succeed? -/
def RowOutcome.isOk : RowOutcome → Bool
  | RowOutcome.ok _ => true
  | RowOutcome.err _ => false

/-- The collected error message, if any. -/
def RowOutcome.msgOf : RowOutcome → Option String
  | RowOutcome.ok _ => Option.none
  | RowOutcome.err m => Option.some m

/-- The message collected at line 182-184 for a row whose required-field
check raised: `f"Row {index + 2}: Missing required fields: {contact_data}"`. -/
def missingMsg (index : Nat) (cd : List (String × PyVal)) : String :=
  "Row " ++ toString (index + 2) ++ ": Missing required fields: " ++ dictRepr cd

/-- The message collected for a row whose email failed the Validator:
`f"Row {index + 2}: Invalid email format: {contact_data['email']}"`. -/
def invalidEmailMsg (index : Nat) (cd : List (String × PyVal)) : String :=
  "Row " ++ toString (index + 2) ++ ": Invalid email format: " ++ emailStringOf cd

/-- Lines 140-184: one iteration of the row loop.  `index` is the 0-based
data frame index; error messages are prefixed `Row {index + 2}`. -/
def processRow (mapping : List (String × String)) (index : Nat)
    (row : List (String × Cell)) : RowOutcome :=
  let cd := buildContactData mapping row
  if !(pyTruthy (getVal cd "first_name") && pyTruthy (getVal cd "last_name") &&
      pyTruthy (getVal cd "email")) then
    RowOutcome.err (missingMsg index cd)
  else if !(validate_email (emailStringOf cd)) then
    RowOutcome.err (invalidEmailMsg index cd)
  else
    RowOutcome.ok (certStep cd)

/-- Lines 134-184: the row loop, accumulating
`(success_count, error_count, error_messages)`.  One row's failure only
appends a message; the remaining rows are still processed. -/
def processRowsAux (mapping : List (String × String)) :
    Nat → List (List (String × Cell)) → Nat × Nat × List String
  | _, [] => (0, 0, [])
  | i, r :: rest =>
      let res := processRowsAux mapping (i + 1) rest
      match processRow mapping i r with
      | RowOutcome.ok _ => (res.1 + 1, res.2.1, res.2.2)
      | RowOutcome.err m => (res.1, res.2.1 + 1, m :: res.2.2)

/-- `utils.process_file_upload`: parse failure short-circuits; otherwise the
row loop runs; if at least one row succeeded the batch commit is attempted,
and a commit exception degrades the result to
`(0, success_count, [single batch error])` (lines 186-196). -/
def process_file_upload (parse : Except String (List (List (String × Cell))))
    (mapping : List (String × String)) (commitResult : Option String) :
    Nat × Nat × List String :=
  match parse with
  | Except.error e => (0, 0, ["File processing error: " ++ e])
  | Except.ok rows =>
      let res := processRowsAux mapping 0 rows
      if 0 < res.1 then
        match commitResult with
        | Option.some e => (0, res.1, ["Failed to save contacts: " ++ e])
        | Option.none => res
      else res

/-- Outcome of the Import Contacts form submission (`main.py` 133-160). -/
inductive ImportSubmitResult where
  | mappingError (msg : String)
  | imported (res : Nat × Nat × List String)
deriving DecidableEq

/-- `main.py` lines 133-160: drop empty mappings, then require the three
mandatory keys before invoking `process_file_upload`. -/
def importContactsSubmit (field_mapping : List (String × String))
    (parse : Except String (List (List (String × Cell))))
    (commitResult : Option String) : ImportSubmitResult :=
  let fm := field_mapping.filter (fun kv => !kv.2.isEmpty)
  if !(truthyOpt (fm.lookup "first_name") && truthyOpt (fm.lookup "last_name") &&
      truthyOpt (fm.lookup "email")) then
    ImportSubmitResult.mappingError "Please map all required fields (First Name, Last Name, Email)"
  else
    ImportSubmitResult.imported (process_file_upload parse fm commitResult)

/-- The certifications value a mapped cell ends up with: projection
(line 147) followed by the certifications branch (lines 162-171). -/
def importCertValue (cell : Cell) : PyVal :=
  getVal (certStep [("certifications", cellToVal cell)]) "certifications"

/-- The certifications field of a row outcome. -/
def certOfOutcome : RowOutcome → PyVal
  | RowOutcome.ok cd => getVal cd "certifications"
  | RowOutcome.err _ => PyVal.none

theorem processRowsAux_spec (mapping : List (String × String))
    (rows : List (List (String × Cell))) : ∀ i : Nat,
    processRowsAux mapping i rows =
      ((List.enumFrom i rows).countP (fun p => (processRow mapping p.1 p.2).isOk),
       (List.enumFrom i rows).countP (fun p => !(processRow mapping p.1 p.2).isOk),
       (List.enumFrom i rows).filterMap (fun p => (processRow mapping p.1 p.2).msgOf)) := by
  induction rows with
  | nil => intro i; rfl
  | cons r rest ih =>
      intro i
      cases hm : processRow mapping i r <;>
        simp [processRowsAux, List.enumFrom, hm, List.countP_cons, List.filterMap_cons,
          RowOutcome.isOk, RowOutcome.msgOf, ih (i + 1), Nat.add_comm]

/-! ### String containment helper lemmas -/

theorem data_append (s t : String) : (s ++ t).data = s.data ++ t.data := rfl

theorem isPrefixOf_append {α : Type} [BEq α] [LawfulBEq α] (a b : List α) :
    a.isPrefixOf (a ++ b) = true := by
  induction a with
  | nil => simp [List.isPrefixOf]
  | cons c a ih => simp [List.isPrefixOf, ih]

theorem isPrefixOf_append_both {α : Type} [BEq α] [LawfulBEq α] (x : List α) {u v : List α}
    (h : u.isPrefixOf v = true) : (x ++ u).isPrefixOf (x ++ v) = true := by
  induction x with
  | nil => simpa using h
  | cons c x ih => simp [List.isPrefixOf, ih]

theorem occursIn_append_left (pat : List Char) (a : List Char) {s : List Char}
    (h : occursIn pat s = true) : occursIn pat (a ++ s) = true := by
  induction a with
  | nil => simpa using h
  | cons c a ih =>
      simp only [List.cons_append, occursIn, Bool.or_eq_true]
      exact Or.inr ih

theorem occursIn_self_append (pat b : List Char) : occursIn pat (pat ++ b) = true := by
  cases pat with
  | nil => cases b <;> simp [occursIn, List.isPrefixOf]
  | cons c p =>
      simp only [List.cons_append, occursIn, Bool.or_eq_true]
      exact Or.inl (isPrefixOf_append (c :: p) b)

theorem startsStr_of_append (p q : String) : startsStr (p ++ q) p = true := by
  unfold startsStr
  rw [data_append]
  exact isPrefixOf_append p.data q.data

theorem containsStr_infix (x pat y : String) : containsStr (x ++ pat ++ y) pat = true := by
  unfold containsStr
  rw [data_append, data_append, List.append_assoc]
  exact occursIn_append_left pat.data x.data (occursIn_self_append pat.data y.data)

theorem str_append_assoc (a b c : String) : (a ++ b) ++ c = a ++ (b ++ c) := by
  cases a; cases b; cases c
  apply congrArg String.mk
  exact List.append_assoc _ _ _

theorem missingMsg_starts (i : Nat) (cd : List (String × PyVal)) :
    startsStr (missingMsg i cd) ("Row " ++ toString (i + 2) ++ ":") = true := by
  unfold startsStr missingMsg
  simp only [data_append, List.append_assoc]
  exact isPrefixOf_append_both _ (isPrefixOf_append_both _
    (by simp [List.isPrefixOf, List.cons_append]))

theorem missingMsg_contains (i : Nat) (cd : List (String × PyVal)) :
    containsStr (missingMsg i cd) "Missing required fields" = true := by
  unfold containsStr missingMsg
  simp only [data_append, List.append_assoc]
  exact occursIn_append_left _ _ (occursIn_append_left _ _
    (by simp [occursIn, List.isPrefixOf, List.cons_append]))

theorem invalidEmailMsg_starts (i : Nat) (cd : List (String × PyVal)) :
    startsStr (invalidEmailMsg i cd) ("Row " ++ toString (i + 2) ++ ":") = true := by
  unfold startsStr invalidEmailMsg
  simp only [data_append, List.append_assoc]
  exact isPrefixOf_append_both _ (isPrefixOf_append_both _
    (by simp [List.isPrefixOf, List.cons_append]))

theorem invalidEmailMsg_contains (i : Nat) (cd : List (String × PyVal)) :
    containsStr (invalidEmailMsg i cd) "Invalid email format" = true := by
  unfold containsStr invalidEmailMsg
  simp only [data_append, List.append_assoc]
  exact occursIn_append_left _ _ (occursIn_append_left _ _
    (by simp [occursIn, List.isPrefixOf, List.cons_append]))

/-! ### SMTP configuration and transport (`utils.py` lines 20-118)

The process environment is a partial map from setting name to value; the
smtplib transport is a collaborator whose four interaction points
(constructor/connect, STARTTLS, login, send) each succeed or raise.  An
`SmtpCall` records the returned `(success, diagnostic)` pair, whether a
session object was successfully created (`opened`), whether `server.quit()`
ran before returning (`closed`), and the host/port handed to the `SMTP`
constructor if execution reached it. -/

/-- The process environment (`os.getenv`). -/
def Env : Type := String → Option String

/-- `os.getenv(key, default)`: the default applies only when the variable
is unset, not when it is set to the empty string. -/
def getenvD (env : Env) (k d : String) : String := (env k).getD d

/-- `utils.check_email_configuration` (lines 20-29). -/
def check_email_configuration (env : Env) : Bool × Option String :=
  let missing := ["SMTP_SERVER", "SMTP_PORT", "SENDER_EMAIL", "SENDER_PASSWORD"].filter
    (fun k => !truthyOpt (env k))
  if !missing.isEmpty then
    (false, Option.some ("Missing email configuration: " ++ String.intercalate ", " missing))
  else
    (true, Option.none)

/-- Value of a digit string. -/
def digitsToNat (cs : List Char) : Nat := cs.foldl (fun acc c => acc * 10 + (c.toNat - 48)) 0

/-- Python `int(s)`: optional surrounding whitespace, optional sign,
then digits; anything else raises `ValueError`. -/
def pyIntParse (s : String) : Option Int :=
  match trimChars s.data with
  | [] => Option.none
  | c :: rest =>
      if c = '+' ∨ c = '-' then
        if rest ≠ [] ∧ rest.all Char.isDigit then
          Option.some (if c = '-' then -(digitsToNat rest : Int) else (digitsToNat rest : Int))
        else Option.none
      else if (c :: rest).all Char.isDigit then
        Option.some (digitsToNat (c :: rest) : Int)
      else Option.none

/-- The `ValueError` text for a failed `int(...)` (Python quoting of the
offending literal is abstracted away). -/
def pyIntErrMsg (s : String) : String := "invalid literal for int() with base 10: " ++ s

/-- Outcome of `server.login(...)`. -/
inductive LoginRes where
  | ok
  | authError (msg : String)
  | smtpError (msg : String)
  | otherError (msg : String)
deriving DecidableEq

/-- Outcome of `server.send_message(msg)`. -/
inductive SendRes where
  | ok
  | smtpError (msg : String)
  | otherError (msg : String)
deriving DecidableEq

/-- Outcome of `smtplib.SMTP(...)` / `server.starttls()`. -/
inductive ConnRes where
  | ok
  | failure (msg : String)
deriving DecidableEq

/-- The smtplib collaborator. -/
structure Transport where
  connect : String → Int → ConnRes
  starttls : ConnRes
  login : String → String → LoginRes
  send : SendRes

/-- Observable outcome of one `send_email` / `verify_smtp_connection`
execution. -/
structure SmtpCall where
  result : Bool × Option String
  opened : Bool
  closed : Bool
  connectAttempt : Option (String × Int)
deriving DecidableEq

/-- The Office 365 MFA guidance returned by `verify_smtp_connection` when
the authentication error mentions code 535 (lines 56-61). -/
def mfaAuthMsg : String :=
  "\n                Office 365 authentication failed. If you use Multi-Factor Authentication (MFA):\n                1. You need to create an App Password\n                2. Regular password won\x27t work with MFA\n                3. Go to Office 365 Account Settings → Security → App Passwords\n                "

/-- Lines 54-63: the diagnostic chosen for an authentication failure. -/
def verifyAuthMsgOf (e : String) : String :=
  if containsStr e "535" then mfaAuthMsg
  else "Authentication failed: Please verify your Office 365 credentials"

/-- `utils.verify_smtp_connection` (lines 31-69).  Defaults substitute for
unset `SMTP_SERVER`/`SMTP_PORT`; the truthiness check at line 39 gates the
connection attempt; only `SMTPAuthenticationError` is caught at the inner
`except`, every other exception reaches the outer handler.  Note that no
branch except full success calls `server.quit()`. -/
def verify_smtp_connection (env : Env) (tr : Transport) : SmtpCall :=
  match pyIntParse (getenvD env "SMTP_PORT" "587") with
  | Option.none =>
      { result := (false, Option.some
          ("Connection error: " ++ pyIntErrMsg (getenvD env "SMTP_PORT" "587"))),
        opened := false, closed := false, connectAttempt := Option.none }
  | Option.some smtp_port =>
      let smtp_server := getenvD env "SMTP_SERVER" "outlook.office365.com"
      if !((!smtp_server.isEmpty) && (smtp_port != 0) &&
          truthyOpt (env "SENDER_EMAIL") && truthyOpt (env "SENDER_PASSWORD")) then
        { result := (false, Option.some "Missing email configuration settings"),
          opened := false, closed := false, connectAttempt := Option.none }
      else
        match tr.connect smtp_server smtp_port with
        | ConnRes.failure e =>
            { result := (false, Option.some ("Connection error: " ++ e)),
              opened := false, closed := false,
              connectAttempt := Option.some (smtp_server, smtp_port) }
        | ConnRes.ok =>
            match tr.starttls with
            | ConnRes.failure e =>
                { result := (false, Option.some ("Connection error: " ++ e)),
                  opened := true, closed := false,
                  connectAttempt := Option.some (smtp_server, smtp_port) }
            | ConnRes.ok =>
                match tr.login ((env "SENDER_EMAIL").getD "") ((env "SENDER_PASSWORD").getD "") with
                | LoginRes.ok =>
                    { result := (true, Option.none), opened := true, closed := true,
                      connectAttempt := Option.some (smtp_server, smtp_port) }
                | LoginRes.authError e =>
                    { result := (false, Option.some (verifyAuthMsgOf e)),
                      opened := true, closed := false,
                      connectAttempt := Option.some (smtp_server, smtp_port) }
                | LoginRes.smtpError e =>
                    { result := (false, Option.some ("Connection error: " ++ e)),
                      opened := true, closed := false,
                      connectAttempt := Option.some (smtp_server, smtp_port) }
                | LoginRes.otherError e =>
                    { result := (false, Option.some ("Connection error: " ++ e)),
                      opened := true, closed := false,
                      connectAttempt := Option.some (smtp_server, smtp_port) }

/-- `utils.send_email` (lines 71-118).  Configuration is checked before any
network interaction; the inner `except` clauses catch
`SMTPAuthenticationError` and `SMTPException`; `server.quit()` runs only
after a successful `send_message`. -/
def send_email (env : Env) (tr : Transport) (to_email subject body : String) : SmtpCall :=
  match check_email_configuration env with
  | (false, config_error) =>
      { result := (false, config_error), opened := false, closed := false,
        connectAttempt := Option.none }
  | (true, _) =>
      match pyIntParse (getenvD env "SMTP_PORT" "587") with
      | Option.none =>
          { result := (false, Option.some
              ("Error sending email: " ++ pyIntErrMsg (getenvD env "SMTP_PORT" "587"))),
            opened := false, closed := false, connectAttempt := Option.none }
      | Option.some smtp_port =>
          let smtp_server := getenvD env "SMTP_SERVER" "outlook.office365.com"
          match tr.connect smtp_server smtp_port with
          | ConnRes.failure e =>
              { result := (false, Option.some ("Error sending email: " ++ e)),
                opened := false, closed := false,
                connectAttempt := Option.some (smtp_server, smtp_port) }
          | ConnRes.ok =>
              match tr.starttls with
              | ConnRes.failure e =>
                  { result := (false, Option.some ("Error sending email: " ++ e)),
                    opened := true, closed := false,
                    connectAttempt := Option.some (smtp_server, smtp_port) }
              | ConnRes.ok =>
                  match tr.login ((env "SENDER_EMAIL").getD "")
                      ((env "SENDER_PASSWORD").getD "") with
                  | LoginRes.authError _ =>
                      { result := (false, Option.some
                          "Failed to authenticate with Office 365. Please verify your credentials."),
                        opened := true, closed := false,
                        connectAttempt := Option.some (smtp_server, smtp_port) }
                  | LoginRes.smtpError e =>
                      { result := (false, Option.some ("SMTP error: " ++ e)),
                        opened := true, closed := false,
                        connectAttempt := Option.some (smtp_server, smtp_port) }
                  | LoginRes.otherError e =>
                      { result := (false, Option.some ("Error sending email: " ++ e)),
                        opened := true, closed := false,
                        connectAttempt := Option.some (smtp_server, smtp_port) }
                  | LoginRes.ok =>
                      match tr.send with
                      | SendRes.ok =>
                          { result := (true, Option.none), opened := true, closed := true,
                            connectAttempt := Option.some (smtp_server, smtp_port) }
                      | SendRes.smtpError e =>
                          { result := (false, Option.some ("SMTP error: " ++ e)),
                            opened := true, closed := false,
                            connectAttempt := Option.some (smtp_server, smtp_port) }
                      | SendRes.otherError e =>
                          { result := (false, Option.some ("Error sending email: " ++ e)),
                            opened := true, closed := false,
                            connectAttempt := Option.some (smtp_server, smtp_port) }

/-! ### Template Store seeding (`models.py`, `init_db`, lines 97-164)

The template table is modelled as the list of stored templates; the
commit of the seeded batch is the list append. -/

/-- A stored email template. -/
structure EmailTemplate where
  name : String
  subject : String
  body : String
deriving DecidableEq

/-- The two built-in templates inserted by `init_db` when the table is
empty (lines 122-153). -/
def default_templates : List EmailTemplate :=
  [{ name := "Job Opening",
     subject := "Exciting Nursing Opportunity in Your Area",
     body := "Dear [FIRST_NAME],\n\nI hope this email finds you well. I wanted to reach out about an exciting nursing opportunity that matches your expertise as a [NURSE_TYPE] in [SPECIALTY].\n\nWe are currently seeking experienced nurses for a prestigious healthcare facility in your area.\n\nWould you be interested in learning more about this opportunity? If so, please reply to this email or call me directly.\n\nBest regards,\n[Your Name]\nNurse Recruiter" },
   { name := "Follow Up",
     subject := "Following Up - Nursing Position",
     body := "Dear [FIRST_NAME],\n\nI wanted to follow up regarding the nursing position we discussed previously. Have you had a chance to consider the opportunity?\n\nI\x27m available to answer any questions you might have about the role or the facility.\n\nLooking forward to hearing from you.\n\nBest regards,\n[Your Name]\nNurse Recruiter" }]

/-- The seeding step of `init_db`: count the stored templates and insert
the built-in set only when none exist (lines 117-155). -/
def init_db_seed (existing : List EmailTemplate) : List EmailTemplate :=
  if existing.length = 0 then existing ++ default_templates else existing

/-! ### Concrete scenario data shared by the import claims -/

/-- The field mapping of the import scenario. -/
def scenarioMapping : List (String × String) :=
  [("first_name", "First Name"), ("last_name", "Last Name"), ("email", "Email")]

/-- The 3-data-row import scenario: row 1 valid, row 2 with an invalid
email, row 3 missing the last name. -/
def scenarioRows : List (List (String × Cell)) :=
  [[("First Name", Cell.str "Alice"), ("Last Name", Cell.str "Smith"),
    ("Email", Cell.str "alice@example.com")],
   [("First Name", Cell.str "Bob"), ("Last Name", Cell.str "Jones"),
    ("Email", Cell.str "not-an-email")],
   [("First Name", Cell.str "Carol"), ("Last Name", Cell.na),
    ("Email", Cell.str "carol@example.com")]]

/-- A mapping that also maps the certifications column. -/
def certMapping : List (String × String) := scenarioMapping ++ [("certifications", "Certs")]

/-- A valid row carrying the certifications string from the spec example. -/
def certRow : List (String × Cell) :=
  [("First Name", Cell.str "Dana"), ("Last Name", Cell.str "Lee"),
   ("Email", Cell.str "dana@example.com"), ("Certs", Cell.str "BLS, ACLS ,  ")]

/-- An environment with all four transport settings configured. -/
def envAll : Env := fun k =>
  if k = "SMTP_SERVER" then Option.some "smtp.example.com"
  else if k = "SMTP_PORT" then Option.some "587"
  else if k = "SENDER_EMAIL" then Option.some "sender@example.com"
  else if k = "SENDER_PASSWORD" then Option.some "hunter2"
  else Option.none

/-- An environment with `SMTP_SERVER` unset, `SMTP_PORT` set to `"0"`, and
sender address and credential set. -/
def envPortZero : Env := fun k =>
  if k = "SMTP_PORT" then Option.some "0"
  else if k = "SENDER_EMAIL" then Option.some "sender@example.com"
  else if k = "SENDER_PASSWORD" then Option.some "hunter2"
  else Option.none

/-- An environment with only sender address and credential set. -/
def envBothUnset : Env := fun k =>
  if k = "SENDER_EMAIL" then Option.some "sender@example.com"
  else if k = "SENDER_PASSWORD" then Option.some "hunter2"
  else Option.none

/-- A transport whose login always fails with an authentication error. -/
def badAuthTransport : Transport :=
  { connect := fun _ _ => ConnRes.ok, starttls := ConnRes.ok,
    login := fun _ _ => LoginRes.authError "535 bad credentials", send := SendRes.ok }

/-- The three recipients of the bulk-send scenario. -/
def blastContacts : List Contact :=
  [{ first_name := "Amy", nurse_type := "", specialty := "", email := "amy@example.com" },
   { first_name := "Ben", nurse_type := "", specialty := "", email := "ben@example.com" },
   { first_name := "Cal", nurse_type := "", specialty := "", email := "cal@example.com" }]

/-- A single-send collaborator that fails exactly for the second recipient
of `blastContacts`. -/
def failSecondSend : String → String → String → Bool × Option String :=
  fun toAddr _ _ =>
    if toAddr = "ben@example.com" then (false, Option.some "boom") else (true, Option.none)

/-- A transport for which every interaction succeeds. -/
def goodTransport : Transport :=
  { connect := fun _ _ => ConnRes.ok, starttls := ConnRes.ok,
    login := fun _ _ => LoginRes.ok, send := SendRes.ok }

/-- An environment with nothing set. -/
def emptyEnv : Env := fun _ => Option.none

/-- The scenario row whose last name is missing. -/
def missingRow : List (String × Cell) :=
  [("First Name", Cell.str "Carol"), ("Last Name", Cell.na),
   ("Email", Cell.str "carol@example.com")]

/-! ### Claims -/

/-- C1, counterexample: the blast loop substitutes only `[FIRST_NAME]`,
`[NURSE_TYPE]` and `[SPECIALTY]`; the token `[NAME]`, which the claim
counts among the recognized set, is left verbatim instead of being
replaced by a contact attribute. -/
theorem claim_C1_counterexample :
    personalized_body "Dear [NAME],"
      { first_name := "Jane", nurse_type := "Registered Nurse (RN)",
        specialty := "Oncology", email := "jane@example.com" } = "Dear [NAME]," ∧
    containsStr (personalized_body "Dear [NAME],"
      { first_name := "Jane", nurse_type := "Registered Nurse (RN)",
        specialty := "Oncology", email := "jane@example.com" }) "[NAME]" = true := by
  decide

set_option maxRecDepth 8000 in
/-- C1, amended: the dispatcher replaces every occurrence of each token in
the recognized set `[FIRST_NAME]`, `[NURSE_TYPE]`, `[SPECIALTY]` with the
corresponding contact attribute, substituting the documented default when
the attribute is empty; any bracketed token outside that set — including
`[NAME]` — is left verbatim; the spec's Jane example renders as stated. -/
theorem claim_C1_theorem :
    (∀ (c : Contact) (body : String),
      containsStr body "[FIRST_NAME]" = false → containsStr body "[NURSE_TYPE]" = false →
      containsStr body "[SPECIALTY]" = false → personalized_body body c = body) ∧
    personalized_body "Hi [FIRST_NAME], you are a [NURSE_TYPE]"
      { first_name := "Jane", nurse_type := "", specialty := "", email := "jane@example.com" } =
      "Hi Jane, you are a healthcare professional" ∧
    personalized_body "[FIRST_NAME]/[NURSE_TYPE]/[SPECIALTY]"
      { first_name := "", nurse_type := "", specialty := "", email := "n@example.com" } =
      "Valued Nurse/healthcare professional/your specialty" ∧
    personalized_body "[FIRST_NAME] and [FIRST_NAME]"
      { first_name := "Maria", nurse_type := "Registered Nurse (RN)",
        specialty := "Oncology", email := "m@example.com" } =
      "Maria and Maria" :=
  ⟨fun c body h1 h2 h3 => personalized_body_of_no_tokens body c h1 h2 h3,
    by decide, by decide, by decide⟩

/-- C1, witness: a body without any recognized token is returned
unchanged. -/
theorem claim_C1_witness :
    personalized_body "Dear colleague,"
      { first_name := "Jane", nurse_type := "", specialty := "", email := "jane@example.com" } =
      "Dear colleague," :=
  claim_C1_theorem.1
    { first_name := "Jane", nurse_type := "", specialty := "", email := "jane@example.com" }
    "Dear colleague," (by decide) (by decide) (by decide)

set_option maxRecDepth 8000 in
/-- C5: the blast loop calls the single-send operation exactly once per
recipient in order, aggregates successes, failures and per-recipient error
messages independently, and in the 3-recipient scenario where only the
second send fails it still attempts the third and reports 2 successes,
1 failure, with the second recipient's address in the error message. -/
theorem claim_C5_theorem :
    (∀ (subject body : String) (send : String → String → String → Bool × Option String)
        (contacts : List Contact),
      (email_blast subject body send contacts).attempted = contacts.map Contact.email ∧
      (email_blast subject body send contacts).success_count =
        contacts.countP (fun c => (send c.email subject (personalized_body body c)).1) ∧
      (email_blast subject body send contacts).error_count =
        contacts.countP (fun c => !(send c.email subject (personalized_body body c)).1) ∧
      (email_blast subject body send contacts).error_messages =
        contacts.filterMap (fun c =>
          if (send c.email subject (personalized_body body c)).1 then Option.none
          else Option.some ("Failed to send email to " ++ c.email ++ ": " ++
            optMsgStr (send c.email subject (personalized_body body c)).2))) ∧
    email_blast "S" "B" failSecondSend blastContacts =
      { success_count := 2, error_count := 1,
        error_messages := ["Failed to send email to ben@example.com: boom"],
        attempted := ["amy@example.com", "ben@example.com", "cal@example.com"] } ∧
    containsStr "Failed to send email to ben@example.com: boom" "ben@example.com" = true :=
  ⟨fun subject body send contacts => email_blast_spec subject body send contacts,
    by decide, by decide⟩

/-- C7: initializing on an empty template store inserts exactly the fixed
built-in template set; initializing when any templates exist inserts
nothing; seeding is idempotent. -/
theorem claim_C7_theorem :
    init_db_seed [] = default_templates ∧
    (∀ ts : List EmailTemplate, ts ≠ [] → init_db_seed ts = ts) ∧
    (∀ ts : List EmailTemplate, init_db_seed (init_db_seed ts) = init_db_seed ts) := by
  refine ⟨rfl, ?_, ?_⟩
  · intro ts h
    unfold init_db_seed
    rw [if_neg (fun hc => h (List.length_eq_zero.mp hc))]
  · intro ts
    cases ts <;> rfl

/-- C7, witness: re-seeding an already seeded store changes nothing. -/
theorem claim_C7_witness : init_db_seed default_templates = default_templates :=
  claim_C7_theorem.2.1 default_templates (by decide)

/-- C9, counterexample: `a+b@c.d` has the spec's local@domain.tld shape
(non-whitespace throughout) yet the Validator rejects it, because the
regex classes admit only word characters, dots and hyphens; conversely
`a@b.c` followed by a newline — a whitespace character — is accepted,
because Python `$` matches before a final newline. -/
theorem claim_C9_counterexample :
    specEmailShape "a+b@c.d" = true ∧ validate_email "a+b@c.d" = false ∧
    validate_email "a@b.c\n" = true ∧ Char.isWhitespace '\n' = true := by
  decide

/-- C9, amended: `validate_email` returns true exactly when the input —
allowing one trailing newline — decomposes as `local@middle.tld` with
nonempty `local` and `middle` over letters, digits, underscore, dot and
hyphen, and a nonempty final label of word characters; it is a total
function, so malformed input yields `false` rather than an exception. -/
theorem claim_C9_theorem (s : String) :
    validate_email s = true ↔
      (EmailShape s.data ∨
        (s.data.getLast? = Option.some '\n' ∧ EmailShape s.data.dropLast)) := by
  unfold validate_email
  simp only [Bool.or_eq_true, Bool.and_eq_true, beq_iff_eq, emailCoreMatch_iff]

/-- C9, witness: the characterization accepts a well-formed address. -/
theorem claim_C9_witness :
    validate_email "alice@example.com" = true :=
  ( claim_C9_theorem "alice@example.com").mpr
    (Or.inl ⟨"alice".data, "example".data, "com".data, by decide, by decide, by decide,
      by decide, by decide, by decide, by decide⟩)

set_option maxRecDepth 8000 in
/-- C2: the row loop aggregates independent per-row outcomes in order (so
one row's failure never aborts the rest), a row failing the required-field
check yields an error prefixed with its visual row number and containing
"Missing required fields", a row whose email fails the Validator yields an
error containing "Invalid email format", and the 3-row scenario returns
success_count 1, error_count 2, with errors referencing rows 3 and 4. -/
theorem claim_C2_theorem :
    (∀ (mapping : List (String × String)) (rows : List (List (String × Cell))) (i : Nat),
      processRowsAux mapping i rows =
        ((List.enumFrom i rows).countP (fun p => (processRow mapping p.1 p.2).isOk),
         (List.enumFrom i rows).countP (fun p => !(processRow mapping p.1 p.2).isOk),
         (List.enumFrom i rows).filterMap (fun p => (processRow mapping p.1 p.2).msgOf))) ∧
    (∀ (mapping : List (String × String)) (i : Nat) (row : List (String × Cell)),
      (pyTruthy (getVal (buildContactData mapping row) "first_name") &&
       pyTruthy (getVal (buildContactData mapping row) "last_name") &&
       pyTruthy (getVal (buildContactData mapping row) "email")) = false →
      processRow mapping i row = RowOutcome.err (missingMsg i (buildContactData mapping row)) ∧
      startsStr (missingMsg i (buildContactData mapping row))
        ("Row " ++ toString (i + 2) ++ ":") = true ∧
      containsStr (missingMsg i (buildContactData mapping row)) "Missing required fields" = true) ∧
    (∀ (mapping : List (String × String)) (i : Nat) (row : List (String × Cell)),
      (pyTruthy (getVal (buildContactData mapping row) "first_name") &&
       pyTruthy (getVal (buildContactData mapping row) "last_name") &&
       pyTruthy (getVal (buildContactData mapping row) "email")) = true →
      validate_email (emailStringOf (buildContactData mapping row)) = false →
      processRow mapping i row = RowOutcome.err (invalidEmailMsg i (buildContactData mapping row)) ∧
      startsStr (invalidEmailMsg i (buildContactData mapping row))
        ("Row " ++ toString (i + 2) ++ ":") = true ∧
      containsStr (invalidEmailMsg i (buildContactData mapping row)) "Invalid email format" = true) ∧
    (process_file_upload (Except.ok scenarioRows) scenarioMapping Option.none).1 = 1 ∧
    (process_file_upload (Except.ok scenarioRows) scenarioMapping Option.none).2.1 = 2 ∧
    ((process_file_upload (Except.ok scenarioRows) scenarioMapping Option.none).2.2.map
      (fun m => (startsStr m "Row 3:", startsStr m "Row 4:",
        containsStr m "Invalid email format", containsStr m "Missing required fields"))) =
      [(true, false, true, false), (false, true, false, true)] := by
  refine ⟨fun mapping rows i => processRowsAux_spec mapping rows i, ?_, ?_,
    by decide, by decide, by decide⟩
  · intro mapping i row h
    exact ⟨by simp [processRow, h], missingMsg_starts i _, missingMsg_contains i _⟩
  · intro mapping i row hreq hval
    exact ⟨by simp [processRow, hreq, hval], invalidEmailMsg_starts i _,
      invalidEmailMsg_contains i _⟩

/-- C2, witness: the scenario row with the missing last name is rejected
with the expected message shape. -/
theorem claim_C2_witness :
    processRow scenarioMapping 2 missingRow =
      RowOutcome.err (missingMsg 2 (buildContactData scenarioMapping missingRow)) ∧
    startsStr (missingMsg 2 (buildContactData scenarioMapping missingRow))
      ("Row " ++ toString (2 + 2) ++ ":") = true ∧
    containsStr (missingMsg 2 (buildContactData scenarioMapping missingRow))
      "Missing required fields" = true :=
  claim_C2_theorem.2.1 scenarioMapping 2 missingRow (by decide)

/-- C3: when at least one row passed validation and the batch commit is
rejected, `process_file_upload` returns a success count of zero and a
single batch-level error message. -/
theorem claim_C3_theorem (rows : List (List (String × Cell)))
    (mapping : List (String × String)) (e : String)
    (h : 0 < (processRowsAux mapping 0 rows).1) :
    process_file_upload (Except.ok rows) mapping (Option.some e) =
      (0, (processRowsAux mapping 0 rows).1, ["Failed to save contacts: " ++ e]) := by
  unfold process_file_upload
  simp [h]

/-- C3, witness: the scenario import with a rejected commit degrades to
zero successes and the single batch error. -/
theorem claim_C3_witness :
    process_file_upload (Except.ok scenarioRows) scenarioMapping (Option.some "duplicate key") =
      (0, (processRowsAux scenarioMapping 0 scenarioRows).1,
        ["Failed to save contacts: duplicate key"]) :=
  claim_C3_theorem scenarioRows scenarioMapping "duplicate key" (by decide)

/-- C4: a field mapping that lacks any of the three mandatory keys (after
dropping empty selections) makes the import submission fail with the
configuration error, whatever the file content and commit outcome — so no
row is read and no per-row error is produced. -/
theorem claim_C4_theorem (field_mapping : List (String × String))
    (parse : Except String (List (List (String × Cell)))) (commitResult : Option String)
    (h : truthyOpt ((field_mapping.filter (fun kv => !kv.2.isEmpty)).lookup "first_name") = false ∨
         truthyOpt ((field_mapping.filter (fun kv => !kv.2.isEmpty)).lookup "last_name") = false ∨
         truthyOpt ((field_mapping.filter (fun kv => !kv.2.isEmpty)).lookup "email") = false) :
    importContactsSubmit field_mapping parse commitResult =
      ImportSubmitResult.mappingError
        "Please map all required fields (First Name, Last Name, Email)" := by
  unfold importContactsSubmit
  rcases h with h | h | h <;> simp [h]

/-- C4, witness: a mapping without an email column is rejected before the
importer runs, independently of the file rows. -/
theorem claim_C4_witness :
    importContactsSubmit [("first_name", "First Name"), ("last_name", "Last Name")]
      (Except.ok scenarioRows) Option.none =
      ImportSubmitResult.mappingError
        "Please map all required fields (First Name, Last Name, Email)" :=
  claim_C4_theorem [("first_name", "First Name"), ("last_name", "Last Name")]
    (Except.ok scenarioRows) Option.none (Or.inr (Or.inr (by decide)))

/-- C6, counterexample: a non-string certifications cell does not yield an
empty tag list: a numeric cell is coerced to its string form and split
(`42` becomes `["42"]`), and an NA cell stays `None`. -/
theorem claim_C6_counterexample :
    importCertValue (Cell.int 42) = PyVal.vlist ["42"] ∧
    PyVal.vlist ["42"] ≠ PyVal.vlist [] ∧
    importCertValue Cell.na = PyVal.none ∧
    PyVal.none ≠ PyVal.vlist [] := by
  decide

/-- C6, amended: a string certifications cell whose trimmed value is
nonempty is split on commas with pieces trimmed and empty pieces dropped
(so the spec example normalizes to `["BLS", "ACLS"]`); a whitespace-only
string stays the empty string, an NA cell stays `None`, and any other
non-string cell is coerced to its string form before splitting. -/
theorem claim_C6_theorem :
    (∀ s : String, (pyStrip s).isEmpty = false →
      importCertValue (Cell.str s) = PyVal.vlist (certSplit (pyStrip s))) ∧
    importCertValue (Cell.str "BLS, ACLS ,  ") = PyVal.vlist ["BLS", "ACLS"] ∧
    importCertValue (Cell.str "   ") = PyVal.vstr "" ∧
    importCertValue (Cell.int 42) = PyVal.vlist ["42"] ∧
    importCertValue Cell.na = PyVal.none ∧
    certOfOutcome (processRow certMapping 0 certRow) = PyVal.vlist ["BLS", "ACLS"] := by
  refine ⟨?_, by decide, by decide, by decide, by decide, by decide⟩
  intro s h
  simp [importCertValue, certStep, cellToVal, List.lookup, pyTruthy, h, assocSet, getVal]

/-- C6, witness: a padded comma-separated string normalizes through the
split-trim-drop pipeline. -/
theorem claim_C6_witness :
    importCertValue (Cell.str " BLS , ACLS ") =
      PyVal.vlist (certSplit (pyStrip " BLS , ACLS ")) :=
  claim_C6_theorem.1 " BLS , ACLS " (by decide)

/-- C8, counterexample: with valid configuration and a transport whose
login raises an authentication error, both `send_email` and
`verify_smtp_connection` open a session and return without closing it. -/
theorem claim_C8_counterexample :
    (send_email envAll badAuthTransport "to@example.com" "S" "B").opened = true ∧
    (send_email envAll badAuthTransport "to@example.com" "S" "B").closed = false ∧
    (send_email envAll badAuthTransport "to@example.com" "S" "B").result.1 = false ∧
    (verify_smtp_connection envAll badAuthTransport).opened = true ∧
    (verify_smtp_connection envAll badAuthTransport).closed = false := by
  decide

/-- C8, amended: the transport session is closed before return exactly on
the fully successful path of the operation; on authentication, SMTP or
unexpected errors raised after the session opens, the operation returns
without calling `quit`. -/
theorem claim_C8_theorem (env : Env) (tr : Transport) (to_email subject body : String) :
    ((send_email env tr to_email subject body).closed = true ↔
      (send_email env tr to_email subject body).result.1 = true) ∧
    ((verify_smtp_connection env tr).closed = true ↔
      (verify_smtp_connection env tr).result.1 = true) := by
  constructor
  · unfold send_email
    cases hc : check_email_configuration env with
    | mk ok err =>
        cases ok
        · simp
        · cases hp : pyIntParse (getenvD env "SMTP_PORT" "587") with
          | none => simp
          | some port =>
              cases hconn : tr.connect (getenvD env "SMTP_SERVER" "outlook.office365.com") port with
              | failure e => simp [hconn]
              | ok =>
                  cases htls : tr.starttls with
                  | failure e => simp [hconn, htls]
                  | ok =>
                      cases hlog : tr.login ((env "SENDER_EMAIL").getD "")
                          ((env "SENDER_PASSWORD").getD "") with
                      | authError e => simp [hconn, htls, hlog]
                      | smtpError e => simp [hconn, htls, hlog]
                      | otherError e => simp [hconn, htls, hlog]
                      | ok =>
                          cases hsend : tr.send with
                          | ok => simp [hconn, htls, hlog, hsend]
                          | smtpError e => simp [hconn, htls, hlog, hsend]
                          | otherError e => simp [hconn, htls, hlog, hsend]
  · unfold verify_smtp_connection
    cases hp : pyIntParse (getenvD env "SMTP_PORT" "587") with
    | none => simp [hp]
    | some port =>
        try simp only [hp]
        split
        · simp
        · cases hconn : tr.connect (getenvD env "SMTP_SERVER" "outlook.office365.com") port with
          | failure e => simp [hconn]
          | ok =>
              cases htls : tr.starttls with
              | failure e => simp [hconn, htls]
              | ok =>
                  cases hlog : tr.login ((env "SENDER_EMAIL").getD "")
                      ((env "SENDER_PASSWORD").getD "") with
                  | ok => simp [hconn, htls, hlog]
                  | authError e => simp [hconn, htls, hlog]
                  | smtpError e => simp [hconn, htls, hlog]
                  | otherError e => simp [hconn, htls, hlog]

/-- C8, witness: a fully successful send closes its session. -/
theorem claim_C8_witness :
    (send_email envAll goodTransport "to@example.com" "S" "B").closed = true :=
  ((claim_C8_theorem envAll goodTransport "to@example.com" "S" "B").1).mpr (by decide)

theorem connErr_ne_missing (e : String) :
    ("Connection error: " ++ e) ≠ "Missing email configuration settings" := by
  intro h
  have h2 := congrArg String.data h
  rw [data_append] at h2
  simp at h2

/-- C10, counterexample: in an environment where `SMTP_SERVER` is unset,
sender address and credential are set, but `SMTP_PORT` is `"0"`, the
verify operation reports the configuration failure and never reaches the
`SMTP` constructor, contradicting the claim that it proceeds to the
handshake whenever `SMTP_SERVER` or `SMTP_PORT` is unset and the sender
settings are present. -/
theorem claim_C10_counterexample :
    envPortZero "SMTP_SERVER" = Option.none ∧
    truthyOpt (envPortZero "SENDER_EMAIL") = true ∧
    truthyOpt (envPortZero "SENDER_PASSWORD") = true ∧
    (verify_smtp_connection envPortZero badAuthTransport).connectAttempt = Option.none ∧
    (verify_smtp_connection envPortZero badAuthTransport).result =
      (false, Option.some "Missing email configuration settings") := by
  decide

/-- C10, amended: when `SMTP_SERVER` and `SMTP_PORT` are both unset and
sender address and credential are set, verify substitutes the defaults
`outlook.office365.com` and 587 and proceeds to the connection attempt,
while `send_email` returns a configuration failure naming the missing
settings without any network interaction; and with both defaults in play,
verify reports its configuration failure exactly when the sender address
or the credential is missing. -/
theorem claim_C10_theorem (env env2 : Env) (tr tr2 : Transport)
    (to_email subject body : String)
    (h1 : env "SMTP_SERVER" = Option.none) (h2 : env "SMTP_PORT" = Option.none)
    (h3 : truthyOpt (env "SENDER_EMAIL") = true)
    (h4 : truthyOpt (env "SENDER_PASSWORD") = true)
    (h5 : env2 "SMTP_SERVER" = Option.none) (h6 : env2 "SMTP_PORT" = Option.none) :
    (verify_smtp_connection env tr).connectAttempt =
      Option.some ("outlook.office365.com", 587) ∧
    (send_email env tr to_email subject body).connectAttempt = Option.none ∧
    (send_email env tr to_email subject body).result =
      (false, Option.some "Missing email configuration: SMTP_SERVER, SMTP_PORT") ∧
    ((verify_smtp_connection env2 tr2).result =
        (false, Option.some "Missing email configuration settings") ↔
      (truthyOpt (env2 "SENDER_EMAIL") = false ∨
        truthyOpt (env2 "SENDER_PASSWORD") = false)) := by
  have hport : getenvD env "SMTP_PORT" "587" = "587" := by unfold getenvD; rw [h2]; rfl
  have hserver : getenvD env "SMTP_SERVER" "outlook.office365.com" =
      "outlook.office365.com" := by unfold getenvD; rw [h1]; rfl
  have hport2 : getenvD env2 "SMTP_PORT" "587" = "587" := by unfold getenvD; rw [h6]; rfl
  have hserver2 : getenvD env2 "SMTP_SERVER" "outlook.office365.com" =
      "outlook.office365.com" := by unfold getenvD; rw [h5]; rfl
  have hp587 : pyIntParse "587" = Option.some 587 := by decide
  have hcfg : check_email_configuration env =
      (false, Option.some "Missing email configuration: SMTP_SERVER, SMTP_PORT") := by
    unfold check_email_configuration
    have ht : truthyOpt Option.none = false := rfl
    simp [h1, h2, h3, h4, ht]
    try decide
  refine ⟨?_, ?_, ?_, ?_⟩
  · unfold verify_smtp_connection
    simp only [hport, hp587, hserver, h3, h4]
    rw [if_neg (by decide)]
    cases hconn : tr.connect "outlook.office365.com" 587 with
    | failure e => simp [hconn]
    | ok =>
        cases htls : tr.starttls with
        | failure e => simp [hconn, htls]
        | ok =>
            cases hlog : tr.login ((env "SENDER_EMAIL").getD "")
                ((env "SENDER_PASSWORD").getD "") with
            | ok => simp [hconn, htls, hlog]
            | authError e => simp [hconn, htls, hlog]
            | smtpError e => simp [hconn, htls, hlog]
            | otherError e => simp [hconn, htls, hlog]
  · unfold send_email
    rw [hcfg]
  · unfold send_email
    rw [hcfg]
  · unfold verify_smtp_connection
    simp only [hport2, hp587, hserver2]
    cases hs : truthyOpt (env2 "SENDER_EMAIL") <;> cases hp : truthyOpt (env2 "SENDER_PASSWORD")
    · simp
    · simp
    · simp
    · rw [if_neg (by decide)]
      simp only [Bool.true_eq_false, or_self, iff_false]
      cases hconn : tr2.connect "outlook.office365.com" 587 with
      | failure e => simp [hconn, connErr_ne_missing e]
      | ok =>
          cases htls : tr2.starttls with
          | failure e => simp [hconn, htls, connErr_ne_missing e]
          | ok =>
              cases hlog : tr2.login ((env2 "SENDER_EMAIL").getD "")
                  ((env2 "SENDER_PASSWORD").getD "") with
              | ok => simp [hconn, htls, hlog]
              | authError e =>
                  simp only [hconn, htls, hlog, verifyAuthMsgOf]
                  split <;> simp <;> decide
              | smtpError e => simp [hconn, htls, hlog, connErr_ne_missing e]
              | otherError e => simp [hconn, htls, hlog, connErr_ne_missing e]

/-- C10, witness: with both transport location settings unset and sender
settings present, verify heads for the default host and port while send
fails fast on configuration; with nothing set, verify reports the
configuration failure. -/
theorem claim_C10_witness :
    (verify_smtp_connection envBothUnset badAuthTransport).connectAttempt =
      Option.some ("outlook.office365.com", 587) ∧
    (send_email envBothUnset badAuthTransport "to@example.com" "S" "B").connectAttempt =
      Option.none ∧
    (send_email envBothUnset badAuthTransport "to@example.com" "S" "B").result =
      (false, Option.some "Missing email configuration: SMTP_SERVER, SMTP_PORT") ∧
    ((verify_smtp_connection emptyEnv goodTransport).result =
        (false, Option.some "Missing email configuration settings") ↔
      (truthyOpt (emptyEnv "SENDER_EMAIL") = false ∨
        truthyOpt (emptyEnv "SENDER_PASSWORD") = false)) :=
  claim_C10_theorem envBothUnset emptyEnv badAuthTransport goodTransport
    "to@example.com" "S" "B" (by decide) (by decide) (by decide) (by decide)
    (by decide) (by decide)

end DynamicRN
